import Mathlib

/-!
Verification development for the attendance registration app.

The client component (source: the single React component file) is embedded
as a pure state machine: the registration list and the form input buffer
form the state, and user events (typing, role change, submit, download)
are a `step` function.  External, nondeterministic inputs of the source —
`crypto.randomUUID()`, `new Date().toLocaleString()`,
`new Date().toLocaleDateString()`, `window.open` succeeding or not, and
the `PORT` environment variable — are modelled as explicit parameters.
-/

namespace Attendance

/-- The fixed role enumeration `const roles = ["student", "teacher"]`. -/
inductive Role where
  | student
  | teacher
deriving DecidableEq, Repr

/-- Rendering of a role value as the string the source interpolates
(`registration.role` is the literal string in the source). -/
def roleText : Role → String
  | .student => "student"
  | .teacher => "teacher"

/-- The `Registration` record type of the source.  The four role-specific
fields are optional (`gradeLevel?: string` etc.); `none` models the field
being absent (`undefined`). -/
structure Registration where
  id : String
  role : Role
  fullName : String
  email : String
  gradeLevel : Option String
  studentId : Option String
  subject : Option String
  employeeId : Option String
  createdAt : String
deriving DecidableEq, Repr

/-- The `RegistrationFormValues` input buffer: `Registration` minus
`id`/`createdAt`. -/
structure RegistrationFormValues where
  role : Role
  fullName : String
  email : String
  gradeLevel : Option String
  studentId : Option String
  subject : Option String
  employeeId : Option String
deriving DecidableEq, Repr

/-- Test of the source's email pattern `\S+@\S+\.\S+` (an unanchored
regex test, as used by the form library's `pattern` rule): the string
contains a match, i.e. there are positions `i < j` holding `@` and `.`
with a non-whitespace character directly before the `@`, at least one
non-whitespace character strictly between `@` and `.`, and a
non-whitespace character directly after the `.`. -/
def emailTest (s : String) : Bool :=
  let cs := s.data
  let n := cs.length
  (List.range n).any fun i =>
    (List.range n).any fun j =>
      decide (1 ≤ i) && decide (i + 2 ≤ j) && decide (j + 1 < n) &&
      (cs.getD i ' ' == '@') && (cs.getD j ' ' == '.') &&
      !(cs.getD (i - 1) ' ').isWhitespace &&
      ((List.range (j - (i + 1))).all fun k => !(cs.getD (i + 1 + k) ' ').isWhitespace) &&
      !(cs.getD (j + 1) ' ').isWhitespace

/-- A required text field is satisfied when its value is not the empty
string (the form library's `required` rule). -/
def requiredStr (s : String) : Bool := s != ""

/-- A required optional-typed field: absent (`undefined`) or empty both
fail the `required` rule. -/
def requiredOpt (o : Option String) : Bool := o.getD "" != ""

/-- Validation performed by `handleSubmit` before `onSubmit` runs:
`fullName` required, `email` required and matching the pattern, and the
pair of fields of the currently selected role required.  Only the
rendered (mounted) pair is validated, exactly as in the source, where the
non-active pair's inputs are unmounted. -/
def validate (v : RegistrationFormValues) : Bool :=
  requiredStr v.fullName && requiredStr v.email && emailTest v.email &&
    (match v.role with
     | .student => requiredOpt v.gradeLevel && requiredOpt v.studentId
     | .teacher => requiredOpt v.subject && requiredOpt v.employeeId)

/-- The per-field error for the email input, mirroring the source's
`required` / `pattern` messages surfaced through `errors.email`. -/
def emailFieldError (v : RegistrationFormValues) : Option String :=
  if v.email == "" then some "Email is required"
  else if !emailTest v.email then some "Enter a valid email"
  else none

/-- The entry built by `onSubmit`:
`{ id: crypto.randomUUID(), createdAt: new Date().toLocaleString(), ...data }`.
The fresh id and the timestamp are external inputs and appear as
parameters. -/
def mkRegistration (freshId createdAt : String) (data : RegistrationFormValues) :
    Registration :=
  { id := freshId
    role := data.role
    fullName := data.fullName
    email := data.email
    gradeLevel := data.gradeLevel
    studentId := data.studentId
    subject := data.subject
    employeeId := data.employeeId
    createdAt := createdAt }

/-- The `reset({...})` call of `onSubmit`: keep the just-submitted role,
set every other field to the empty string. -/
def resetForm (data : RegistrationFormValues) : RegistrationFormValues :=
  { role := data.role
    fullName := ""
    email := ""
    gradeLevel := some ""
    studentId := some ""
    subject := some ""
    employeeId := some "" }

/-- `onSubmit` proper: prepend the new entry
(`setRegistrations((prev) => [entry, ...prev])`) and reset the buffer.
Returns the new registration list and the new form buffer. -/
def onSubmit (freshId createdAt : String) (data : RegistrationFormValues)
    (registrations : List Registration) :
    List Registration × RegistrationFormValues :=
  (mkRegistration freshId createdAt data :: registrations, resetForm data)

/-- The derived summary of the source's `useMemo`. -/
structure Summary where
  studentCount : Nat
  teacherCount : Nat
  total : Nat
deriving DecidableEq, Repr

/-- `summary`: counts filtered by role, and the list length. -/
def summary (registrations : List Registration) : Summary :=
  { studentCount :=
      (registrations.filter fun registration => registration.role == Role.student).length
    teacherCount :=
      (registrations.filter fun registration => registration.role == Role.teacher).length
    total := registrations.length }

/-- The component state: the registration list plus the form buffer. -/
structure AppState where
  registrations : List Registration
  form : RegistrationFormValues
deriving DecidableEq, Repr

/-- User events.  Typing into a role-specific input is possible only when
that input is rendered, which the `step` function guards on the selected
role; `submit` carries the externally generated id and timestamp;
`download` carries whether `window.open` succeeds and the generation
date. -/
inductive Event where
  | setRole (r : Role)
  | setFullName (v : String)
  | setEmail (v : String)
  | setGradeLevel (v : String)
  | setStudentId (v : String)
  | setSubject (v : String)
  | setEmployeeId (v : String)
  | submit (freshId createdAt : String)
  | download (openSucceeds : Bool) (todayStr : String)
deriving DecidableEq, Repr

/-- One step of the component.  Field values persist across role changes
(the form library keeps unmounted field values; they are only cleared by
the `reset` after a successful submission).  A submit first runs
validation; an invalid submit leaves the state untouched.  The download
action never touches state (it only emits DOM effects). -/
def step (s : AppState) : Event → AppState
  | .setRole r => { s with form := { s.form with role := r } }
  | .setFullName v => { s with form := { s.form with fullName := v } }
  | .setEmail v => { s with form := { s.form with email := v } }
  | .setGradeLevel v =>
      if s.form.role = Role.student then
        { s with form := { s.form with gradeLevel := some v } }
      else s
  | .setStudentId v =>
      if s.form.role = Role.student then
        { s with form := { s.form with studentId := some v } }
      else s
  | .setSubject v =>
      if s.form.role = Role.teacher then
        { s with form := { s.form with subject := some v } }
      else s
  | .setEmployeeId v =>
      if s.form.role = Role.teacher then
        { s with form := { s.form with employeeId := some v } }
      else s
  | .submit freshId createdAt =>
      if validate s.form then
        let p := onSubmit freshId createdAt s.form s.registrations
        { registrations := p.1, form := p.2 }
      else s
  | .download _ _ => s

/-- The initial form buffer: `defaultValues: { role: "student" }`; text
fields start empty, the optional fields start absent. -/
def initialForm : RegistrationFormValues :=
  { role := .student
    fullName := ""
    email := ""
    gradeLevel := none
    studentId := none
    subject := none
    employeeId := none }

/-- The initial component state: `useState<Registration[]>([])`. -/
def init : AppState :=
  { registrations := [], form := initialForm }

/-- Running a sequence of events from a state. -/
def run (es : List Event) (s : AppState) : AppState :=
  es.foldl step s

/-! ## Report generator -/

/-- One table row of the printable report: the row template literal of
`buildPrintableHtml`, with the `${...}` holes filled by concatenation.
`index` is the zero-based position; the first cell shows `index + 1`. -/
def renderRow (registration : Registration) (index : Nat) : String :=
  "\n        <tr>\n          <td>" ++ toString (index + 1)
    ++ "</td>\n          <td>" ++ registration.fullName
    ++ "</td>\n          <td>" ++ roleText registration.role
    ++ "</td>\n          <td>" ++ registration.email
    ++ "</td>\n          <td>"
    ++ (if registration.role = Role.student then registration.gradeLevel.getD ""
        else registration.subject.getD "")
    ++ "</td>\n          <td>"
    ++ (if registration.role = Role.student then registration.studentId.getD ""
        else registration.employeeId.getD "")
    ++ "</td>\n          <td>" ++ registration.createdAt
    ++ "</td>\n        </tr>\n      "

/-- The `registrations.map((registration, index) => ...)` of the source:
each registration rendered with its position. -/
def reportRowsAux (index : Nat) : List Registration → List String
  | [] => []
  | registration :: rest =>
      renderRow registration index :: reportRowsAux (index + 1) rest

/-- The list of row strings of the report, in list order, indexed from 0. -/
def reportRows (registrations : List Registration) : List String :=
  reportRowsAux 0 registrations

/-- The document template up to (excluding) the `${today()}` hole.  CSS
braces are written with their escapes. -/
def reportDocHead : String :=
  "\n    <html>\n      <head>\n        <title>Registration Report</title>\n        <style>\n          body \x7b font-family: Arial, sans-serif; padding: 24px; color: #111827; \x7d\n          h1 \x7b margin: 0 0 8px; \x7d\n          p \x7b margin: 0 0 16px; color: #4b5563; \x7d\n          table \x7b width: 100%; border-collapse: collapse; font-size: 12px; \x7d\n          th, td \x7b border: 1px solid #e5e7eb; padding: 8px; text-align: left; \x7d\n          th \x7b background: #f3f4f6; \x7d\n        </style>\n      </head>\n      <body>\n        <h1>Registration Report</h1>\n        <p>Generated: "

/-- The document template between the `${today()}` hole and the `${rows}`
hole (the header row of the table). -/
def reportDocMid : String :=
  "</p>\n        <table>\n          <thead>\n            <tr>\n              <th>#</th>\n              <th>Name</th>\n              <th>Role</th>\n              <th>Email</th>\n              <th>Grade/Subject</th>\n              <th>ID</th>\n              <th>Registered at</th>\n            </tr>\n          </thead>\n          <tbody>\n            "

/-- The document template after the `${rows}` hole. -/
def reportDocTail : String :=
  "\n          </tbody>\n        </table>\n      </body>\n    </html>\n  "

/-- `buildPrintableHtml`: the rows are joined (`.join("")`) and spliced
into the document template.  `todayStr` stands for the
`new Date().toLocaleDateString()` computed at generation time. -/
def buildPrintableHtml (todayStr : String) (registrations : List Registration) :
    String :=
  let rows := String.join (reportRows registrations)
  reportDocHead ++ todayStr ++ reportDocMid ++ rows ++ reportDocTail

/-! ## Download action -/

/-- DOM side effects of `handleDownload`, in order of occurrence. -/
inductive DomEffect where
  | openBlank
  | docOpen
  | docWrite (html : String)
  | docClose
  | focusWindow
  | printWindow
  | closeWindow
deriving DecidableEq, Repr

/-- `handleDownload` as an effect trace.  With an empty list it returns
before anything happens.  Otherwise `window.open("", "_blank")` runs; if
it yields `null` (`openSucceeds = false`) the handler returns with no
further effect; otherwise the document is written, printed and closed.
The handler contains no `setRegistrations`/state update at all. -/
def handleDownload (registrations : List Registration) (openSucceeds : Bool)
    (todayStr : String) : List DomEffect :=
  if registrations.length = 0 then []
  else if openSucceeds then
    [DomEffect.openBlank, DomEffect.docOpen,
     DomEffect.docWrite (buildPrintableHtml todayStr registrations),
     DomEffect.docClose, DomEffect.focusWindow, DomEffect.printWindow,
     DomEffect.closeWindow]
  else [DomEffect.openBlank]

/-! ## String occurrence

A small self-contained "substring occurs" test used to state facts about
the generated HTML (verbatim, unescaped interpolation). -/

/-- `occursIn sub l` holds when `sub` occurs as a contiguous run inside
`l`. -/
def occursIn (sub : List Char) : List Char → Bool
  | [] => sub.isEmpty
  | c :: rest => List.isPrefixOf sub (c :: rest) || occursIn sub rest

/-- String-level occurrence test. -/
def strOccurs (sub s : String) : Bool :=
  occursIn sub.data s.data

/-! ## Role-pair views -/

/-- The pair of fields selected by the registration's role is populated
(present and non-empty). -/
def rolePairPopulated (r : Registration) : Bool :=
  match r.role with
  | .student => requiredOpt r.gradeLevel && requiredOpt r.studentId
  | .teacher => requiredOpt r.subject && requiredOpt r.employeeId

/-- Erase the pair of fields not selected by the role, leaving a record
in which only the role-appropriate pair can be populated. -/
def eraseInactive (r : Registration) : Registration :=
  match r.role with
  | .student => { r with subject := none, employeeId := none }
  | .teacher => { r with gradeLevel := none, studentId := none }

/-! ## Concrete instances used in examples -/

/-- A concrete event trace: fill in a valid student form and submit it. -/
def c1Events : List Event :=
  [Event.setFullName "Jordan Lee", Event.setEmail "a@b.c",
   Event.setGradeLevel "10", Event.setStudentId "S1",
   Event.submit "id-1" "t-1"]

/-- The registration produced by `c1Events`. -/
def c1Registration : Registration :=
  { id := "id-1", role := .student, fullName := "Jordan Lee", email := "a@b.c",
    gradeLevel := some "10", studentId := some "S1", subject := none,
    employeeId := none, createdAt := "t-1" }

/-- A concrete teacher registration. -/
def c2Registration : Registration :=
  { id := "id-2", role := .teacher, fullName := "Alex Kim", email := "k@x.y",
    gradeLevel := none, studentId := none, subject := some "Math",
    employeeId := some "E1", createdAt := "t-2" }

/-- A state whose form holds a valid student submission. -/
def c3State : AppState :=
  { registrations := [],
    form := { role := .student, fullName := "Jordan Lee", email := "a@b.c",
              gradeLevel := some "10", studentId := some "S2045",
              subject := none, employeeId := none } }

/-- A state whose form holds a malformed email. -/
def c5State : AppState :=
  { registrations := [],
    form := { initialForm with
              fullName := "Jordan Lee"
              email := "not-an-email" } }

/-- A state whose form holds a valid teacher submission. -/
def c7State : AppState :=
  { registrations := [c1Registration],
    form := { role := .teacher, fullName := "Alex Kim", email := "k@x.y",
              gradeLevel := some "", studentId := some "",
              subject := some "Math", employeeId := some "E1" } }

/-- A registration whose name field carries HTML markup. -/
def xssRegistration : Registration :=
  { id := "x", role := .student, fullName := "<b>Ada & co</b>", email := "a@b.c",
    gradeLevel := some "9", studentId := some "S9", subject := none,
    employeeId := none, createdAt := "t" }

end Attendance

namespace Server

/-- JS `Number(...)` coercion as used on `process.env.PORT`, restricted
to optionally signed decimal-integer strings after trimming: the empty
(or all-whitespace) string coerces to `0`, a signed run of digits to its
value, and anything else to NaN (`none`).  Fractional, hex and exponent
literal forms do not occur for port values and are mapped to `none`. -/
def jsNumber (s : String) : Option Int :=
  let t := ((s.data.dropWhile Char.isWhitespace).reverse.dropWhile Char.isWhitespace).reverse
  if t = [] then some 0
  else
    let (sign, digits) :=
      match t with
      | '-' :: rest => ((-1 : Int), rest)
      | '+' :: rest => ((1 : Int), rest)
      | l => ((1 : Int), l)
    if digits ≠ [] ∧ digits.all Char.isDigit then
      some (sign * Int.ofNat (digits.foldl (fun acc c => 10 * acc + (c.toNat - '0'.toNat)) 0))
    else none

/-- `const port = Number(process.env.PORT) || 5000`.  `envPort` is the
value of the `PORT` environment variable (`none` when unset; `Number` of
`undefined` is NaN).  `||` falls back exactly when the left value is
falsy: NaN or 0. -/
def port (envPort : Option String) : Int :=
  match (match envPort with | none => none | some s => jsNumber s) with
  | none => 5000
  | some v => if v = 0 then 5000 else v

end Server


/-! ## Helper lemmas -/

namespace Attendance

@[simp] theorem student_beq_teacher : (Role.student == Role.teacher) = false := rfl

@[simp] theorem teacher_beq_student : (Role.teacher == Role.student) = false := rfl

/-- The student filter and the teacher filter partition the list: every
role is one of the two. -/
theorem count_roles (l : List Registration) :
    (l.filter fun registration => registration.role == Role.student).length
      + (l.filter fun registration => registration.role == Role.teacher).length
      = l.length := by
  induction l with
  | nil => rfl
  | cons r rest ih =>
      cases hr : r.role <;> simp [List.filter_cons, hr] <;> omega

/-- A validated buffer yields an entry whose role-selected field pair is
populated. -/
theorem rolePairPopulated_mk (freshId createdAt : String)
    (v : RegistrationFormValues) (hv : validate v = true) :
    rolePairPopulated (mkRegistration freshId createdAt v) = true := by
  cases hr : v.role <;>
    simp [validate, hr, mkRegistration, rolePairPopulated] at hv ⊢ <;> tauto

/-- The populated-role-pair property is preserved along every event. -/
theorem rolePair_step (s : AppState) (e : Event)
    (h : ∀ r ∈ s.registrations, rolePairPopulated r = true) :
    ∀ r ∈ (step s e).registrations, rolePairPopulated r = true := by
  cases e with
  | setRole r0 => exact h
  | setFullName v => exact h
  | setEmail v => exact h
  | setGradeLevel v => simp only [step]; split <;> exact h
  | setStudentId v => simp only [step]; split <;> exact h
  | setSubject v => simp only [step]; split <;> exact h
  | setEmployeeId v => simp only [step]; split <;> exact h
  | download openSucceeds todayStr => exact h
  | submit freshId createdAt =>
      simp only [step]
      split
      · next hv =>
          intro r hr
          rcases List.mem_cons.mp hr with hEq | hMem
          · subst hEq; exact rolePairPopulated_mk freshId createdAt s.form hv
          · exact h r hMem
      · exact h

/-- The populated-role-pair property is preserved along every trace. -/
theorem rolePair_run (es : List Event) (s : AppState)
    (h : ∀ r ∈ s.registrations, rolePairPopulated r = true) :
    ∀ r ∈ (run es s).registrations, rolePairPopulated r = true := by
  induction es generalizing s with
  | nil => exact h
  | cons e rest ih => exact ih (step s e) (rolePair_step s e h)

/-- The report row rendering reads only the role-selected pair: erasing
the other pair does not change the rendered row. -/
theorem renderRow_eraseInactive (r : Registration) (i : Nat) :
    renderRow (eraseInactive r) i = renderRow r i := by
  rcases r with ⟨rid, rrole, rname, remail, rgl, rsid, rsubj, remp, rcat⟩
  cases rrole <;> simp [renderRow, eraseInactive, roleText]

theorem reportRowsAux_length (k : Nat) (l : List Registration) :
    (reportRowsAux k l).length = l.length := by
  induction l generalizing k with
  | nil => rfl
  | cons r rest ih => simp [reportRowsAux, ih]

theorem reportRows_length (l : List Registration) :
    (reportRows l).length = l.length :=
  reportRowsAux_length 0 l

theorem reportRowsAux_getElem? (l : List Registration) (k i : Nat) :
    (reportRowsAux k l)[i]? = (l[i]?).map fun r => renderRow r (k + i) := by
  induction l generalizing k i with
  | nil => simp [reportRowsAux]
  | cons r rest ih =>
      cases i with
      | zero => simp [reportRowsAux]
      | succ n =>
          have hk : k + (n + 1) = (k + 1) + n := by omega
          simp [reportRowsAux, hk, ih]

theorem reportRows_getElem? (l : List Registration) (i : Nat) :
    (reportRows l)[i]? = (l[i]?).map fun r => renderRow r i := by
  simpa [reportRows] using reportRowsAux_getElem? l 0 i

theorem isPrefixOf_append (l post : List Char) :
    List.isPrefixOf l (l ++ post) = true := by
  induction l with
  | nil => cases post <;> rfl
  | cons a l ih =>
      show ((a == a) && List.isPrefixOf l (l ++ post)) = true
      rw [ih]
      simp

theorem occursIn_append_middle (pre sub post : List Char) :
    occursIn sub (pre ++ (sub ++ post)) = true := by
  induction pre with
  | nil =>
      cases sub with
      | nil => cases post <;> rfl
      | cons c cs =>
          show (List.isPrefixOf (c :: cs) (c :: (cs ++ post))
              || occursIn (c :: cs) (cs ++ post)) = true
          have h1 : List.isPrefixOf (c :: cs) (c :: (cs ++ post)) = true :=
            isPrefixOf_append (c :: cs) post
          rw [h1]
          exact Bool.true_or _
  | cons p pre ih =>
      show (List.isPrefixOf sub (p :: (pre ++ (sub ++ post)))
          || occursIn sub (pre ++ (sub ++ post))) = true
      rw [ih]
      exact Bool.or_true _

theorem strOccurs_parts (sub s : String) (pre post : List Char)
    (h : s.data = pre ++ (sub.data ++ post)) : strOccurs sub s = true := by
  unfold strOccurs
  rw [h]
  exact occursIn_append_middle pre sub.data post

/-- A string occurs in any concatenation that has it as a middle part. -/
theorem strOccurs_middle (pre mid post : String) :
    strOccurs mid (pre ++ (mid ++ post)) = true := by
  apply strOccurs_parts mid _ pre.data post.data
  simp [String.data_append]

end Attendance

/-! ## Claim theorems -/

namespace Attendance

/-- C4: for every reachable registration list (after any sequence of
events from the initial state, in particular after any N valid
submissions), `summary.total` equals the list length and
`summary.studentCount + summary.teacherCount` equals `summary.total`,
because every registration's role is either student or teacher. -/
theorem summaryConsistent (es : List Event) :
    (summary (run es init).registrations).total
        = (run es init).registrations.length ∧
    (summary (run es init).registrations).studentCount
        + (summary (run es init).registrations).teacherCount
      = (summary (run es init).registrations).total := by
  refine ⟨rfl, ?_⟩
  simpa [summary] using count_roles (run es init).registrations

/-- C5: a submission whose email does not match the pattern is rejected:
the registration list is unchanged (same list, hence same length) and a
per-field validation error for the email input is surfaced. -/
theorem invalidEmailRejected (s : AppState) (freshId createdAt : String)
    (h : emailTest s.form.email = false) :
    (step s (Event.submit freshId createdAt)).registrations
        = s.registrations ∧
    (step s (Event.submit freshId createdAt)).registrations.length
        = s.registrations.length ∧
    (emailFieldError s.form).isSome = true := by
  have hv : validate s.form = false := by
    simp [validate, h]
  refine ⟨by simp [step, hv], by simp [step, hv], ?_⟩
  unfold emailFieldError
  split
  · rfl
  · simp [h]

/-- C6: the report action with an empty registration list is a no-op: no
DOM effect at all is emitted (no browsing context opened, no document
written, no print), whether or not a popup would have been allowed. -/
theorem downloadEmptyNoop (openSucceeds : Bool) (todayStr : String) :
    handleDownload [] openSucceeds todayStr = [] := rfl

/-- C7: after every valid submission the input buffer is reset: the
just-submitted role is preserved as the next default and every other
field is cleared to the empty string. -/
theorem resetPreservesRole (s : AppState) (freshId createdAt : String)
    (hv : validate s.form = true) :
    (step s (Event.submit freshId createdAt)).form
      = { role := s.form.role, fullName := "", email := "",
          gradeLevel := some "", studentId := some "", subject := some "",
          employeeId := some "" } := by
  simp [step, hv, onSubmit, resetForm]

/-- C10: the report action never mutates the registration list or any
other form state: the state (and the derived summary) is identical
before and after the download event, for every list (empty or not) and
whether the browsing context is blocked or the print completes. -/
theorem downloadFrame (s : AppState) (openSucceeds : Bool) (todayStr : String) :
    step s (Event.download openSucceeds todayStr) = s ∧
    (step s (Event.download openSucceeds todayStr)).registrations
        = s.registrations ∧
    summary (step s (Event.download openSucceeds todayStr)).registrations
        = summary s.registrations :=
  ⟨rfl, rfl, rfl⟩

end Attendance

/-- C8 counterexample: with `PORT` set to `"0"` the numeric value of
`PORT` is `0`, but `Number(PORT) || 5000` falls back to `5000`, so the
port used is not the numeric value of `PORT`. -/
theorem portZeroCounterexample :
    Server.jsNumber "0" = some 0 ∧ Server.port (some "0") = 5000 ∧
    Server.port (some "0") ≠ 0 := by
  refine ⟨by decide, by decide, by decide⟩

/-- C8 (amended): the port is 5000 when `PORT` is unset; when `PORT` is
set and coerces to a nonzero number the port is that number; when `PORT`
coerces to 0 or to NaN (for example `""` or `"0"`) the port falls back
to 5000. -/
theorem portConfig (s : String) (v : Int)
    (hp : Server.jsNumber s = some v) (hv : v ≠ 0) :
    Server.port (some s) = v ∧ Server.port none = 5000 ∧
    Server.port (some "") = 5000 ∧ Server.port (some "0") = 5000 := by
  refine ⟨?_, rfl, by decide, by decide⟩
  simp [Server.port, hp, hv]

/-- C8 witness: `PORT=8080` overrides the default and unset `PORT`
yields 5000. -/
theorem portConfig_witness :
    (Server.jsNumber "8080" = some 8080 ∧ (8080 : Int) ≠ 0) ∧
    (Server.port (some "8080") = 8080 ∧ Server.port none = 5000 ∧
     Server.port (some "") = 5000 ∧ Server.port (some "0") = 5000) :=
  ⟨⟨by decide, by decide⟩, portConfig "8080" 8080 (by decide) (by decide)⟩

namespace Attendance

/-- C1: for every registration held in the in-memory list after any
sequence of events (role changes, typing, valid and invalid submissions,
downloads), the field pair selected by its role is populated, and the
other pair is ignored: rendering the registration with the non-active
pair erased yields the same report row. -/
theorem registrationRolePairInvariant (es : List Event) (r : Registration)
    (i : Nat) (h : r ∈ (run es init).registrations) :
    rolePairPopulated r = true ∧
    renderRow (eraseInactive r) i = renderRow r i := by
  refine ⟨?_, renderRow_eraseInactive r i⟩
  refine rolePair_run es init ?_ r h
  intro r0 hr0
  simp [init] at hr0

/-- C1 witness: the registration produced by a concrete valid student
submission trace. -/
theorem registrationRolePairInvariant_witness :
    (c1Registration ∈ (run c1Events init).registrations) ∧
    (rolePairPopulated c1Registration = true ∧
     renderRow (eraseInactive c1Registration) 0 = renderRow c1Registration 0) :=
  ⟨by decide,
   registrationRolePairInvariant c1Events c1Registration 0 (by decide)⟩

/-- C3: a valid student submission (non-empty full name, email matching
the pattern, role student, non-empty grade level and student id) grows
the list by exactly one entry, increases `summary.total` and
`summary.studentCount` by 1, leaves `summary.teacherCount` unchanged,
and places the new entry first in the list. -/
theorem submitValidStudent (s : AppState) (freshId createdAt : String)
    (hname : requiredStr s.form.fullName = true)
    (hemail : emailTest s.form.email = true)
    (hrole : s.form.role = Role.student)
    (hgl : requiredOpt s.form.gradeLevel = true)
    (hsid : requiredOpt s.form.studentId = true) :
    (step s (Event.submit freshId createdAt)).registrations.length
        = s.registrations.length + 1 ∧
    (summary (step s (Event.submit freshId createdAt)).registrations).total
        = (summary s.registrations).total + 1 ∧
    (summary (step s (Event.submit freshId createdAt)).registrations).studentCount
        = (summary s.registrations).studentCount + 1 ∧
    (summary (step s (Event.submit freshId createdAt)).registrations).teacherCount
        = (summary s.registrations).teacherCount ∧
    (step s (Event.submit freshId createdAt)).registrations.head?
        = some (mkRegistration freshId createdAt s.form) := by
  have hemailne : requiredStr s.form.email = true := by
    by_cases hempty : s.form.email = ""
    · rw [hempty] at hemail
      exact absurd hemail (by decide)
    · simpa [requiredStr] using hempty
  have hv : validate s.form = true := by
    simp [validate, hname, hemailne, hemail, hrole, hgl, hsid]
  have hstep : step s (Event.submit freshId createdAt)
      = { registrations :=
            mkRegistration freshId createdAt s.form :: s.registrations,
          form := resetForm s.form } := by
    simp [step, hv, onSubmit]
  rw [hstep]
  refine ⟨by simp, by simp [summary], ?_, ?_, by simp⟩
  · simp [summary, List.filter_cons, mkRegistration, hrole]
  · simp [summary, List.filter_cons, mkRegistration, hrole]

/-- C3 witness: a concrete valid student submission on the empty list. -/
theorem submitValidStudent_witness :
    (requiredStr c3State.form.fullName = true ∧
     emailTest c3State.form.email = true ∧
     c3State.form.role = Role.student ∧
     requiredOpt c3State.form.gradeLevel = true ∧
     requiredOpt c3State.form.studentId = true) ∧
    ((step c3State (Event.submit "id-3" "t-3")).registrations.length
        = c3State.registrations.length + 1 ∧
     (summary (step c3State (Event.submit "id-3" "t-3")).registrations).total
        = (summary c3State.registrations).total + 1 ∧
     (summary (step c3State (Event.submit "id-3" "t-3")).registrations).studentCount
        = (summary c3State.registrations).studentCount + 1 ∧
     (summary (step c3State (Event.submit "id-3" "t-3")).registrations).teacherCount
        = (summary c3State.registrations).teacherCount ∧
     (step c3State (Event.submit "id-3" "t-3")).registrations.head?
        = some (mkRegistration "id-3" "t-3" c3State.form)) :=
  ⟨⟨by decide, by decide, by decide, by decide, by decide⟩,
   submitValidStudent c3State "id-3" "t-3" (by decide) (by decide) (by decide)
     (by decide) (by decide)⟩

end Attendance

namespace Attendance

/-- C2: the generated report document embeds exactly the joined row
strings; the row list has one row per registration, in list order; the
row at position `i` renders the registration at position `i`; and that
row is the template numbered `i + 1` whose grade/subject cell and ID
cell show the role-appropriate fields of the registration. -/
theorem reportFaithful (regs : List Registration) (todayStr : String)
    (i : Nat) (r : Registration) (h : regs[i]? = some r) :
    buildPrintableHtml todayStr regs
        = reportDocHead ++ todayStr ++ reportDocMid
            ++ String.join (reportRows regs) ++ reportDocTail ∧
    (reportRows regs).length = regs.length ∧
    (reportRows regs)[i]? = some (renderRow r i) ∧
    renderRow r i
      = "\n        <tr>\n          <td>" ++ toString (i + 1)
          ++ "</td>\n          <td>" ++ r.fullName
          ++ "</td>\n          <td>" ++ roleText r.role
          ++ "</td>\n          <td>" ++ r.email
          ++ "</td>\n          <td>"
          ++ (match r.role with
              | .student => r.gradeLevel.getD ""
              | .teacher => r.subject.getD "")
          ++ "</td>\n          <td>"
          ++ (match r.role with
              | .student => r.studentId.getD ""
              | .teacher => r.employeeId.getD "")
          ++ "</td>\n          <td>" ++ r.createdAt
          ++ "</td>\n        </tr>\n      " := by
  refine ⟨rfl, reportRows_length regs, ?_, ?_⟩
  · rw [reportRows_getElem?, h]
    rfl
  · rcases r with ⟨rid, rrole, rname, remail, rgl, rsid, rsubj, remp, rcat⟩
    cases rrole <;> simp [renderRow, roleText]

/-- C2 witness: a one-element teacher list. -/
theorem reportFaithful_witness :
    ([c2Registration][0]? = some c2Registration) ∧
    (buildPrintableHtml "2024-05-01" [c2Registration]
        = reportDocHead ++ "2024-05-01" ++ reportDocMid
            ++ String.join (reportRows [c2Registration]) ++ reportDocTail ∧
     (reportRows [c2Registration]).length = [c2Registration].length ∧
     (reportRows [c2Registration])[0]? = some (renderRow c2Registration 0) ∧
     renderRow c2Registration 0
       = "\n        <tr>\n          <td>" ++ toString (0 + 1)
           ++ "</td>\n          <td>" ++ c2Registration.fullName
           ++ "</td>\n          <td>" ++ roleText c2Registration.role
           ++ "</td>\n          <td>" ++ c2Registration.email
           ++ "</td>\n          <td>"
           ++ (match c2Registration.role with
               | .student => c2Registration.gradeLevel.getD ""
               | .teacher => c2Registration.subject.getD "")
           ++ "</td>\n          <td>"
           ++ (match c2Registration.role with
               | .student => c2Registration.studentId.getD ""
               | .teacher => c2Registration.employeeId.getD "")
           ++ "</td>\n          <td>" ++ c2Registration.createdAt
           ++ "</td>\n        </tr>\n      ") :=
  ⟨rfl, reportFaithful [c2Registration] "2024-05-01" 0 c2Registration rfl⟩

/-- C9: field values are spliced into the report verbatim, with no HTML
escaping: the raw full name and email strings occur in the rendered row
for every registration, and a name carrying markup appears unescaped
inside its cell while no escaped form is produced. -/
theorem rawInterpolation (r : Registration) (i : Nat) :
    strOccurs r.fullName (renderRow r i) = true ∧
    strOccurs r.email (renderRow r i) = true ∧
    strOccurs "<td><b>Ada & co</b></td>" (renderRow xssRegistration 0) = true ∧
    strOccurs "&lt;" (renderRow xssRegistration 0) = false ∧
    strOccurs "&amp;" (renderRow xssRegistration 0) = false := by
  refine ⟨?_, ?_, by decide, by decide, by decide⟩
  · have hsplit : renderRow r i
        = ("\n        <tr>\n          <td>" ++ toString (i + 1)
            ++ "</td>\n          <td>")
          ++ (r.fullName
          ++ ("</td>\n          <td>" ++ roleText r.role
              ++ "</td>\n          <td>" ++ r.email
              ++ "</td>\n          <td>"
              ++ (if r.role = Role.student then r.gradeLevel.getD ""
                  else r.subject.getD "")
              ++ "</td>\n          <td>"
              ++ (if r.role = Role.student then r.studentId.getD ""
                  else r.employeeId.getD "")
              ++ "</td>\n          <td>" ++ r.createdAt
              ++ "</td>\n        </tr>\n      ")) := by
      simp [renderRow, String.append_assoc]
    rw [hsplit]
    exact strOccurs_middle _ _ _
  · have hsplit : renderRow r i
        = ("\n        <tr>\n          <td>" ++ toString (i + 1)
            ++ "</td>\n          <td>" ++ r.fullName
            ++ "</td>\n          <td>" ++ roleText r.role
            ++ "</td>\n          <td>")
          ++ (r.email
          ++ ("</td>\n          <td>"
              ++ (if r.role = Role.student then r.gradeLevel.getD ""
                  else r.subject.getD "")
              ++ "</td>\n          <td>"
              ++ (if r.role = Role.student then r.studentId.getD ""
                  else r.employeeId.getD "")
              ++ "</td>\n          <td>" ++ r.createdAt
              ++ "</td>\n        </tr>\n      ")) := by
      simp [renderRow, String.append_assoc]
    rw [hsplit]
    exact strOccurs_middle _ _ _

end Attendance

namespace Attendance

/-- C5 witness: submitting `email = "not-an-email"` is rejected on a
concrete state. -/
theorem invalidEmailRejected_witness :
    (emailTest c5State.form.email = false) ∧
    ((step c5State (Event.submit "id-5" "t-5")).registrations
        = c5State.registrations ∧
     (step c5State (Event.submit "id-5" "t-5")).registrations.length
        = c5State.registrations.length ∧
     (emailFieldError c5State.form).isSome = true) :=
  ⟨by decide, invalidEmailRejected c5State "id-5" "t-5" (by decide)⟩

/-- C7 witness: a concrete valid teacher submission resets the buffer
while keeping the teacher role. -/
theorem resetPreservesRole_witness :
    (validate c7State.form = true) ∧
    ((step c7State (Event.submit "id-7" "t-7")).form
      = { role := c7State.form.role, fullName := "", email := "",
          gradeLevel := some "", studentId := some "", subject := some "",
          employeeId := some "" }) :=
  ⟨by decide, resetPreservesRole c7State "id-7" "t-7" (by decide)⟩

end Attendance
